import Mathlib

/-!
Shallow embedding of the ESP32-ElegantOTA provisioning firmware
(final revision of src/OTA.h together with the main application file that
defines checkButton / heartbeat / loop).

The embedding models machine integers as Nat, with explicit mod 2^32
arithmetic where the source relies on unsigned wraparound
(onOTAProgress).  External collaborators (WiFiManager, the WiFi radio,
ElegantOTA, AsyncWebServer) are represented by the observable state the
core reads and writes plus an oracle supplying the outcomes of their
nondeterministic operations (saved-credential connect result, portal
session duration and result).
-/

namespace ESP32OTA

/-- BUTTON_PRESS_TIME in the main application file: required hold time
(3 seconds, in ms) for a long hold. -/
def BUTTON_PRESS_TIME : Nat := 3000

/-- OTA_SERVER_PORT in OTA.h (final revision). -/
def OTA_SERVER_PORT : Nat := 8080

/-- The command classified from one physical press/release cycle of the
configuration button. -/
inductive ButtonCommand where
  | none
  | shortPress
  | longHold
deriving DecidableEq

/-- The five provisioning states named by the specification.  The source
keeps no such enum; the tag is derived from the scattered flags by the
classify function below. -/
inductive ProvisioningState where
  | Idle
  | ConnectingSaved
  | PortalActive
  | ServingUpdates
  | Disabled
deriving DecidableEq

/-- Teardown actions performed by the operator-requested shutdown. -/
inductive Action where
  | stopUpdateService
  | stopPortal
  | radioOff
deriving DecidableEq

/-- The WiFiManager configuration values the source sets.  Menu entries,
custom HTML and logging callbacks carry no state the core later reads
and are omitted. -/
structure WiFiManagerConfig where
  configPortalTimeout : Nat
  connectTimeout : Nat
  minimumSignalQuality : Nat
  showPassword : Bool
  debugOutput : Bool
  wifiAutoReconnect : Bool
  cleanConnect : Bool
  breakAfterConfig : Bool
  configPortalBlocking : Bool
deriving DecidableEq

/-- The process-wide mutable state: the global flag shouldStartConfigPortal,
the button monitor statics of checkButton, the statics of the WiFi monitor
in handleOTA, and the observable state of the external collaborators the
core drives (server started and how many root routes were registered,
portal session activity, radio power and association). -/
structure SysState where
  shouldStartConfigPortal : Bool
  buttonPressed : Bool
  buttonPressStart : Nat
  serverStarted : Bool
  rootHandlers : Nat
  portalActive : Bool
  connecting : Bool
  radioOff : Bool
  wifiConnected : Bool
  wasConnected : Bool
  lastWiFiCheck : Nat
  wm : WiFiManagerConfig
deriving DecidableEq

/-- Outcomes of the external collaborators during one poll cycle:
whether a credential is saved, after how many 500 ms waits the saved
connect attempt associates (none = never inside the window), how long the
blocking portal session runs before the library returns, its boolean
result, and whether the link is up when the portal ends. -/
structure Oracle where
  hasSaved : Bool
  connectsAt : Option Nat
  portalDurationMs : Nat
  portalResult : Bool
  portalConnected : Bool

/-- Result of running one of the source functions: the successor state,
how many milliseconds the caller was blocked inside the call, and the
intermediate observable states the device passes through while blocked
(sampled instants inside the call). -/
structure PollResult where
  state : SysState
  blockedMs : Nat
  samples : List SysState

/-- Button monitor statics of checkButton. -/
structure ButtonMonState where
  buttonPressed : Bool
  buttonPressStart : Nat
deriving DecidableEq

/-- WiFiManager library defaults, all overwritten where the source
configures them; configPortalBlocking defaults to blocking. -/
def defaultWiFiManagerConfig : WiFiManagerConfig :=
  { configPortalTimeout := 0
    connectTimeout := 0
    minimumSignalQuality := 8
    showPassword := false
    debugOutput := true
    wifiAutoReconnect := true
    cleanConnect := false
    breakAfterConfig := true
    configPortalBlocking := true }

/-- configureWiFiManager in OTA.h (final revision): portal timeout 180 s,
connect timeout 15 s, minimum quality 20, show password, debug output,
no auto-reconnect during portal, clean connect, keep the portal open
after a successful configuration. -/
def configureWiFiManager (w : WiFiManagerConfig) : WiFiManagerConfig :=
  { w with
    configPortalTimeout := 180
    connectTimeout := 15
    minimumSignalQuality := 20
    showPassword := true
    debugOutput := true
    wifiAutoReconnect := false
    cleanConnect := true
    breakAfterConfig := false }

/-- State after setup(): setupOTA() only runs configureWiFiManager and
logs; no automatic WiFi connection is attempted, no flag is set. -/
def initState : SysState :=
  { shouldStartConfigPortal := false
    buttonPressed := false
    buttonPressStart := 0
    serverStarted := false
    rootHandlers := 0
    portalActive := false
    connecting := false
    radioOff := false
    wifiConnected := false
    wasConnected := false
    lastWiFiCheck := 0
    wm := configureWiFiManager defaultWiFiManagerConfig }

/-- setupWebServerAndOTA in OTA.h (final revision): registers the root
redirect route on the global server, runs ElegantOTA.begin, installs the
three callbacks and starts the server.  There is no already-running
guard; every invocation registers one more root route handler. -/
def setupWebServerAndOTA (s : SysState) : SysState :=
  { s with rootHandlers := s.rootHandlers + 1, serverStarted := true }

/-- Number of 500 ms delays executed by the saved-credential wait loop
(while status is not connected and attempts < 20). -/
def savedConnectDelays (o : Oracle) : Nat :=
  match o.connectsAt with
  | some k => min k 20
  | none => 20

/-- Whether WiFi.status() reads WL_CONNECTED after the wait loop. -/
def savedConnectOk (o : Oracle) : Bool :=
  match o.connectsAt with
  | some k => decide (k ≤ 20)
  | none => false

/-- startWiFiConnection in OTA.h (final revision).  Disconnect plus
delay(100), station mode plus delay(100); when a credential is saved,
WiFi.begin() and up to twenty 500 ms waits; on success
setupWebServerAndOTA and return (the portal-request flag is left as it
was); otherwise disconnect, delay(500) and set shouldStartConfigPortal.
The sample list carries the state observable during the wait loop. -/
def startWiFiConnection (o : Oracle) (s : SysState) : PollResult :=
  if o.hasSaved = true then
    if savedConnectOk o = true then
      { state := setupWebServerAndOTA
          { s with wifiConnected := true, radioOff := false }
        blockedMs := 200 + 500 * savedConnectDelays o
        samples := [{ s with wifiConnected := false, radioOff := false, connecting := true }] }
    else
      { state := { s with wifiConnected := false, radioOff := false,
                          shouldStartConfigPortal := true }
        blockedMs := 200 + 500 * savedConnectDelays o + 500
        samples := [{ s with wifiConnected := false, radioOff := false, connecting := true }] }
  else
    { state := { s with wifiConnected := false, radioOff := false,
                        shouldStartConfigPortal := true }
      blockedMs := 200 + 500
      samples := [] }

/-- startConfigPortal in OTA.h (final revision): sets the
shouldStartConfigPortal flag first, then runs startWiFiConnection. -/
def startConfigPortal (o : Oracle) (s : SysState) : PollResult :=
  startWiFiConnection o { s with shouldStartConfigPortal := true }

/-- Modelled from the spec: disableWiFi is called from checkButton on a
short press but its definition is not under src/ (only the call site
is).  Per the spec, the operator-requested shutdown stops the Update
Service, stops the portal if active, then disconnects and powers off the
radio, in that fixed order, and the teardown is idempotent if the
resources are already released.  Route registrations live in the server
object and persist. -/
def disableWiFi (s : SysState) : SysState × List Action :=
  ({ s with serverStarted := false, portalActive := false,
            wifiConnected := false, radioOff := true },
   [Action.stopUpdateService, Action.stopPortal, Action.radioOff])

/-- The button edge-and-timing logic of checkButton (main application
file): a released-to-pressed transition records the press start; a
pressed-to-released transition computes the held duration and classifies
it; anything else does nothing. -/
def buttonStep (level : Bool) (now : Nat) (m : ButtonMonState) : ButtonMonState × ButtonCommand :=
  if level = true ∧ m.buttonPressed = false then
    ({ buttonPressed := true, buttonPressStart := now }, ButtonCommand.none)
  else if level = false ∧ m.buttonPressed = true then
    ({ m with buttonPressed := false },
     if BUTTON_PRESS_TIME ≤ now - m.buttonPressStart then ButtonCommand.longHold
     else if 50 < now - m.buttonPressStart then ButtonCommand.shortPress
     else ButtonCommand.none)
  else (m, ButtonCommand.none)

/-- checkButton (main application file): runs the monitor step on the
sampled level, then dispatches the classified command: long hold calls
startConfigPortal, short press calls disableWiFi, otherwise nothing. -/
def checkButton (o : Oracle) (level : Bool) (now : Nat) (s : SysState) :
    PollResult × List Action :=
  match buttonStep level now
      { buttonPressed := s.buttonPressed, buttonPressStart := s.buttonPressStart } with
  | (m, ButtonCommand.longHold) =>
      (startConfigPortal o
        { s with buttonPressed := m.buttonPressed, buttonPressStart := m.buttonPressStart }, [])
  | (m, ButtonCommand.shortPress) =>
      ({ state := (disableWiFi
            { s with buttonPressed := m.buttonPressed,
                     buttonPressStart := m.buttonPressStart }).1
         blockedMs := 0
         samples := [] },
       (disableWiFi
            { s with buttonPressed := m.buttonPressed,
                     buttonPressStart := m.buttonPressStart }).2)
  | (m, ButtonCommand.none) =>
      ({ state := { s with buttonPressed := m.buttonPressed,
                           buttonPressStart := m.buttonPressStart }
         blockedMs := 0
         samples := [] }, [])

/-- The WiFi monitor block at the end of handleOTA: every 5 seconds it
samples the link and updates the statics; it only logs, never acts. -/
def wifiMonitor (now : Nat) (s : SysState) : SysState :=
  if 5000 ≤ now - s.lastWiFiCheck then
    { s with wasConnected := s.wifiConnected, lastWiFiCheck := now }
  else s

/-- handleOTA in OTA.h (final revision).  wifiManager.process() acts
only when a non-blocking portal is active, which never holds here.  When
the flag is set: clear it, keep the portal open after config, switch the
manager to blocking mode and run the portal; the library returns after
at most the configured portal timeout (180 s); the sample is the state
observable while the portal session runs.  If the link is up when the
portal ends, setupWebServerAndOTA runs.  Blocking mode is not reset (that
line is commented out in the source).  Finally the WiFi monitor block.
portalPrep is the state right before wifiManager.startConfigPortal runs:
flag cleared, portal kept open after config, manager in blocking mode. -/
def portalPrep (s : SysState) : SysState :=
  { s with
    shouldStartConfigPortal := false
    wm := { s.wm with breakAfterConfig := false, configPortalBlocking := true } }

/-- The state observable while the blocking portal session runs. -/
def portalMid (s : SysState) : SysState :=
  { portalPrep s with portalActive := true }

def handleOTA (o : Oracle) (now : Nat) (s : SysState) : PollResult :=
  if s.shouldStartConfigPortal = true then
    if o.portalConnected = true then
      { state := wifiMonitor now (setupWebServerAndOTA
          { portalPrep s with wifiConnected := true })
        blockedMs := min o.portalDurationMs (s.wm.configPortalTimeout * 1000)
        samples := [portalMid s] }
    else
      { state := wifiMonitor now { portalPrep s with wifiConnected := false }
        blockedMs := min o.portalDurationMs (s.wm.configPortalTimeout * 1000)
        samples := [portalMid s] }
  else
    { state := wifiMonitor now s, blockedMs := 0, samples := [] }

/-- One sampled button level, its time, and the collaborator outcomes of
the iteration. -/
structure PollInput where
  level : Bool
  now : Nat
  oracle : Oracle

/-- One iteration of loop() (main application file): checkButton, then
handleOTA; heartbeat only drives the LED and the status printout and
touches no core state. -/
def loopIter (i : PollInput) (s : SysState) : PollResult :=
  { state := (handleOTA i.oracle i.now (checkButton i.oracle i.level i.now s).1.state).state
    blockedMs := (checkButton i.oracle i.level i.now s).1.blockedMs +
      (handleOTA i.oracle i.now (checkButton i.oracle i.level i.now s).1.state).blockedMs
    samples := (checkButton i.oracle i.level i.now s).1.samples ++
      (handleOTA i.oracle i.now (checkButton i.oracle i.level i.now s).1.state).samples }

/-- Derived five-state tag of the specification, read off the flags:
an active portal session, an in-progress saved-credential attempt, a
powered-off radio, a started update service, or none of these. -/
def classify (s : SysState) : ProvisioningState :=
  if s.portalActive = true then ProvisioningState.PortalActive
  else if s.connecting = true then ProvisioningState.ConnectingSaved
  else if s.radioOff = true then ProvisioningState.Disabled
  else if s.serverStarted = true then ProvisioningState.ServingUpdates
  else ProvisioningState.Idle

/-- States the driver loop can be in at an iteration boundary. -/
inductive Reachable : SysState → Prop where
  | init : Reachable initState
  | step {s : SysState} (h : Reachable s) (i : PollInput) : Reachable (loopIter i s).state

/-- States observable at any sampled instant: iteration boundaries plus
the intermediate states passed through inside a blocking call. -/
inductive Observed : SysState → Prop where
  | boundary {s : SysState} (h : Reachable s) : Observed s
  | mid {s m : SysState} (h : Reachable s) (i : PollInput)
      (hm : m ∈ (loopIter i s).samples) : Observed m

/-! ### OTA progress throttling and end callback (final revision) -/

/-- Unsigned 32-bit subtraction as the source computes
millis() - ota_progress_millis. -/
def sub32 (a b : Nat) : Nat := (a + 2 ^ 32 - b % 2 ^ 32) % 2 ^ 32

/-- onOTAProgress in OTA.h (final revision): emit a log line and update
ota_progress_millis only when more than 1000 ms passed since the stored
stamp; the byte counters do not influence emission.  Returns the new
stamp and whether a line was emitted. -/
def onOTAProgress (now ota_progress_millis : Nat) : Nat × Bool :=
  if 1000 < sub32 now ota_progress_millis then (now, true)
  else (ota_progress_millis, false)

/-- Fold onOTAProgress over a stream of event times, collecting the
times at which a log line was emitted. -/
def runProgress : List Nat → Nat → List Nat
  | [], _ => []
  | t :: ts, last =>
      if (onOTAProgress t last).2 = true then t :: runProgress ts (onOTAProgress t last).1
      else runProgress ts (onOTAProgress t last).1

/-- What the device does after the end callback. -/
inductive OTAEndAction where
  | restartAfterMs (graceMs : Nat)
  | continueCurrentFirmware
deriving DecidableEq

/-- onOTAEnd in OTA.h (final revision): on success, log, delay(3000) and
ESP.restart(); on failure, log and keep running the current firmware. -/
def onOTAEnd (success : Bool) : OTAEndAction :=
  if success = true then OTAEndAction.restartAfterMs 3000
  else OTAEndAction.continueCurrentFirmware

/-! ### Invariants of the driver loop -/

/-- Invariant at iteration boundaries: the portal-request flag has been
consumed by handleOTA, no portal session or connect attempt is in
progress, the portal timeout stays as configured at setup, and a started
update service implies a powered radio. -/
def GoodB (s : SysState) : Prop :=
  s.shouldStartConfigPortal = false ∧ s.portalActive = false ∧ s.connecting = false ∧
    s.wm.configPortalTimeout = 180 ∧ (s.serverStarted = true → s.radioOff = false)

/-- Invariant between checkButton and handleOTA inside one iteration:
like GoodB, except the flag may now be set, in which case the radio was
just powered by startWiFiConnection. -/
def GoodMidIter (s : SysState) : Prop :=
  s.portalActive = false ∧ s.connecting = false ∧ s.wm.configPortalTimeout = 180 ∧
    (s.serverStarted = true → s.radioOff = false) ∧
    (s.shouldStartConfigPortal = true → s.radioOff = false)

/-- Invariant of every sampled instant, including instants inside a
blocking call: an active portal session, an in-progress connect attempt
or a started update service all require the radio to be powered. -/
def GoodM (s : SysState) : Prop :=
  s.wm.configPortalTimeout = 180 ∧
    (s.portalActive = true → s.radioOff = false) ∧
    (s.connecting = true → s.radioOff = false) ∧
    (s.serverStarted = true → s.radioOff = false)

theorem goodB_goodM {s : SysState} (h : GoodB s) : GoodM s := by
  obtain ⟨h1, h2, h3, h4, h5⟩ := h
  exact ⟨h4, fun hc => absurd (h2 ▸ hc) (by simp), fun hc => absurd (h3 ▸ hc) (by simp), h5⟩

theorem goodB_wifiMonitor (now : Nat) (s : SysState) (h : GoodB s) :
    GoodB (wifiMonitor now s) := by
  obtain ⟨h1, h2, h3, h4, h5⟩ := h
  unfold wifiMonitor
  split
  · exact ⟨h1, h2, h3, h4, h5⟩
  · exact ⟨h1, h2, h3, h4, h5⟩

theorem startWiFiConnection_goodMidIter (o : Oracle) (s : SysState)
    (hp : s.portalActive = false) (hc : s.connecting = false)
    (ht : s.wm.configPortalTimeout = 180) :
    GoodMidIter (startWiFiConnection o s).state := by
  unfold startWiFiConnection setupWebServerAndOTA GoodMidIter
  by_cases h1 : o.hasSaved = true
  · by_cases h2 : savedConnectOk o = true
    · simp [h1, h2, hp, hc, ht]
    · simp [h1, h2, hp, hc, ht]
  · simp [h1, hp, hc, ht]

theorem checkButton_goodMidIter (o : Oracle) (level : Bool) (now : Nat) (s : SysState)
    (h : GoodB s) : GoodMidIter (checkButton o level now s).1.state := by
  obtain ⟨hf, hp, hc, ht, hs⟩ := h
  unfold checkButton
  rcases hb : buttonStep level now
      { buttonPressed := s.buttonPressed, buttonPressStart := s.buttonPressStart } with ⟨m, cmd⟩
  cases cmd
  · exact ⟨hp, hc, ht, hs, fun hx => absurd (hf ▸ hx) (by simp)⟩
  · refine ⟨rfl, hc, ht, ?_, ?_⟩
    · intro hx
      exact absurd hx (by simp [disableWiFi])
    · intro hx
      exact absurd (hf ▸ hx) (by simp [disableWiFi])
  · exact startWiFiConnection_goodMidIter o _ hp hc ht

theorem handleOTA_goodB (o : Oracle) (now : Nat) (s : SysState)
    (h : GoodMidIter s) : GoodB (handleOTA o now s).state := by
  obtain ⟨hp, hc, ht, hs, hfr⟩ := h
  unfold handleOTA
  by_cases h1 : s.shouldStartConfigPortal = true
  · by_cases h2 : o.portalConnected = true
    · simp only [h1, h2, if_true, if_pos]
      exact goodB_wifiMonitor now _ ⟨rfl, hp, hc, ht, fun _ => hfr h1⟩
    · simp only [h1, h2, if_true, if_pos, if_neg]
      exact goodB_wifiMonitor now _ ⟨rfl, hp, hc, ht, fun hx => hfr h1⟩
  · simp only [h1, if_neg]
    have hf : s.shouldStartConfigPortal = false := by
      cases hx : s.shouldStartConfigPortal
      · rfl
      · exact absurd hx h1
    exact goodB_wifiMonitor now s ⟨hf, hp, hc, ht, hs⟩

theorem loopIter_goodB (i : PollInput) (s : SysState) (h : GoodB s) :
    GoodB (loopIter i s).state :=
  handleOTA_goodB i.oracle i.now _ (checkButton_goodMidIter i.oracle i.level i.now s h)

theorem goodB_init : GoodB initState := by
  refine ⟨rfl, rfl, rfl, rfl, ?_⟩
  intro hx
  exact absurd hx (by simp [initState])

theorem reachable_goodB {s : SysState} (h : Reachable s) : GoodB s := by
  induction h with
  | init => exact goodB_init
  | step h i ih => exact loopIter_goodB i _ ih

theorem startWiFiConnection_samples_goodM (o : Oracle) (s : SysState)
    (hp : s.portalActive = false) (ht : s.wm.configPortalTimeout = 180) :
    ∀ m ∈ (startWiFiConnection o s).samples, GoodM m := by
  unfold startWiFiConnection GoodM
  by_cases h1 : o.hasSaved = true
  · by_cases h2 : savedConnectOk o = true
    · simp [h1, h2, hp, ht]
    · simp [h1, h2, hp, ht]
  · simp [h1]

theorem checkButton_samples_goodM (o : Oracle) (level : Bool) (now : Nat) (s : SysState)
    (h : GoodB s) : ∀ m ∈ (checkButton o level now s).1.samples, GoodM m := by
  obtain ⟨hf, hp, hc, ht, hs⟩ := h
  unfold checkButton
  rcases hb : buttonStep level now
      { buttonPressed := s.buttonPressed, buttonPressStart := s.buttonPressStart } with ⟨m, cmd⟩
  cases cmd
  · simp
  · simp
  · exact startWiFiConnection_samples_goodM o _ hp ht

theorem handleOTA_samples_eq (o : Oracle) (now : Nat) (s : SysState) :
    (handleOTA o now s).samples =
      if s.shouldStartConfigPortal = true then [portalMid s] else [] := by
  unfold handleOTA
  by_cases h1 : s.shouldStartConfigPortal = true
  · by_cases h2 : o.portalConnected = true
    · simp [h1, h2]
    · simp [h1, h2]
  · simp [h1]

theorem portalMid_goodM (s : SysState) (h : GoodMidIter s)
    (hflag : s.shouldStartConfigPortal = true) : GoodM (portalMid s) := by
  obtain ⟨hp, hc, ht, hs, hfr⟩ := h
  have hr : s.radioOff = false := hfr hflag
  exact ⟨ht, fun _ => hr, fun hx => absurd hx (by simp [portalMid, portalPrep, hc]),
    fun hx => hs hx⟩

theorem handleOTA_samples_goodM (o : Oracle) (now : Nat) (s : SysState)
    (h : GoodMidIter s) : ∀ m ∈ (handleOTA o now s).samples, GoodM m := by
  intro m hm
  rw [handleOTA_samples_eq] at hm
  by_cases h1 : s.shouldStartConfigPortal = true
  · rw [if_pos h1, List.mem_singleton] at hm
    subst hm
    exact portalMid_goodM s h h1
  · rw [if_neg h1] at hm
    exact absurd hm (List.not_mem_nil m)

theorem loopIter_samples_goodM (i : PollInput) (s : SysState) (h : GoodB s) :
    ∀ m ∈ (loopIter i s).samples, GoodM m := by
  intro m hm
  have hsplit : m ∈ (checkButton i.oracle i.level i.now s).1.samples ∨
      m ∈ (handleOTA i.oracle i.now (checkButton i.oracle i.level i.now s).1.state).samples := by
    simpa [loopIter] using hm
  rcases hsplit with h1 | h2
  · exact checkButton_samples_goodM i.oracle i.level i.now s h m h1
  · exact handleOTA_samples_goodM i.oracle i.now _
      (checkButton_goodMidIter i.oracle i.level i.now s h) m h2

theorem observed_goodM {s : SysState} (h : Observed s) : GoodM s := by
  cases h with
  | boundary h => exact goodB_goodM (reachable_goodB h)
  | mid h i hm => exact loopIter_samples_goodM i _ (reachable_goodB h) _ hm

/-! ### Field lemmas -/

theorem wifiMonitor_portalActive (now : Nat) (s : SysState) :
    (wifiMonitor now s).portalActive = s.portalActive := by
  unfold wifiMonitor
  split
  · rfl
  · rfl

theorem wifiMonitor_serverStarted (now : Nat) (s : SysState) :
    (wifiMonitor now s).serverStarted = s.serverStarted := by
  unfold wifiMonitor
  split
  · rfl
  · rfl

theorem classify_wifiMonitor (now : Nat) (s : SysState) :
    classify (wifiMonitor now s) = classify s := by
  unfold wifiMonitor
  split
  · rfl
  · rfl

/-! ### Concrete runs used by witnesses and counterexamples

oSavedOk: a saved credential is present and the connect attempt
associates after four 500 ms waits; the portal session, when one runs,
lasts its full 180 s timeout and ends with the link up.
oNoSaved: no saved credential; a portal session would run into its
timeout with no link. -/

def oSavedOk : Oracle :=
  { hasSaved := true, connectsAt := some 4, portalDurationMs := 180000,
    portalResult := true, portalConnected := true }

def oNoSaved : Oracle :=
  { hasSaved := false, connectsAt := none, portalDurationMs := 300000,
    portalResult := false, portalConnected := false }

/-- The button goes down at t = 1000 ms. -/
def pressInput : PollInput := { level := true, now := 1000, oracle := oSavedOk }

/-- Boundary state after the press-down iteration. -/
def pressedState : SysState := (loopIter pressInput initState).state

/-! ### C1 -/

/-- C1: when the input monitor classifies a button release as a short
press (held more than 50 ms and less than 3000 ms), the iteration ends
Disabled with the update service and the portal session both released;
the release emits the teardown actions in the fixed order update
service, portal, radio; and the teardown is idempotent. -/
theorem c1_short_press_disables (s : SysState) (h : Reachable s) (i : PollInput)
    (hpress : s.buttonPressed = true) (hlevel : i.level = false)
    (hlo : 50 < i.now - s.buttonPressStart) (hhi : i.now - s.buttonPressStart < 3000) :
    classify (loopIter i s).state = ProvisioningState.Disabled ∧
    (loopIter i s).state.serverStarted = false ∧
    (loopIter i s).state.portalActive = false ∧
    (checkButton i.oracle i.level i.now s).2 =
      [Action.stopUpdateService, Action.stopPortal, Action.radioOff] ∧
    (disableWiFi (disableWiFi s).1).1 = (disableWiFi s).1 := by
  obtain ⟨hf, hp, hc, ht, hs⟩ := reachable_goodB h
  have hstep : buttonStep i.level i.now
      { buttonPressed := s.buttonPressed, buttonPressStart := s.buttonPressStart } =
      ({ buttonPressed := false, buttonPressStart := s.buttonPressStart },
        ButtonCommand.shortPress) := by
    unfold buttonStep
    rw [if_neg (by simp [hlevel]), if_pos (by simp [hlevel, hpress]),
      if_neg (by simp only [BUTTON_PRESS_TIME]; omega), if_pos (by simpa using hlo)]
  have hcb : checkButton i.oracle i.level i.now s =
      ({ state := (disableWiFi
            { s with buttonPressed := false, buttonPressStart := s.buttonPressStart }).1
         blockedMs := 0
         samples := [] },
        (disableWiFi
            { s with buttonPressed := false, buttonPressStart := s.buttonPressStart }).2) := by
    unfold checkButton
    rw [hstep]
  have hstate : (loopIter i s).state = wifiMonitor i.now
      (disableWiFi { s with buttonPressed := false, buttonPressStart := s.buttonPressStart }).1 := by
    show (handleOTA i.oracle i.now (checkButton i.oracle i.level i.now s).1.state).state = _
    rw [hcb]
    unfold handleOTA
    rw [if_neg (by simp [disableWiFi, hf])]
  refine ⟨?_, ?_, ?_, ?_, rfl⟩
  · rw [hstate, classify_wifiMonitor]
    unfold classify disableWiFi
    simp [hc]
  · rw [hstate, wifiMonitor_serverStarted]
    rfl
  · rw [hstate, wifiMonitor_portalActive]
    rfl
  · rw [hcb]
    rfl

/-- Witness for C1: the concrete run press at 1000 ms, release at
1100 ms (held 100 ms), from the boundary state after the press
iteration. -/
theorem c1_short_press_disables_witness :
    classify (loopIter { level := false, now := 1100, oracle := oNoSaved } pressedState).state =
        ProvisioningState.Disabled ∧
    (loopIter { level := false, now := 1100, oracle := oNoSaved } pressedState).state.serverStarted
        = false ∧
    (loopIter { level := false, now := 1100, oracle := oNoSaved } pressedState).state.portalActive
        = false ∧
    (checkButton oNoSaved false 1100 pressedState).2 =
      [Action.stopUpdateService, Action.stopPortal, Action.radioOff] ∧
    (disableWiFi (disableWiFi pressedState).1).1 = (disableWiFi pressedState).1 :=
  c1_short_press_disables pressedState (Reachable.step Reachable.init pressInput)
    { level := false, now := 1100, oracle := oNoSaved }
    (by decide) rfl (by decide) (by decide)

/-! ### C5 -/

/-- C5: at every sampled instant the machine is in exactly one of the
five defined states, and impossible combinations never occur: no active
portal session and no running update service on a powered-off radio. -/
theorem c5_exactly_one_state (s : SysState) (h : Observed s) :
    (∃! c : ProvisioningState, classify s = c) ∧
    ¬(s.portalActive = true ∧ s.radioOff = true) ∧
    ¬(s.serverStarted = true ∧ s.radioOff = true) := by
  obtain ⟨ht, h1, h2, h3⟩ := observed_goodM h
  refine ⟨⟨classify s, rfl, fun y hy => hy.symm⟩, ?_, ?_⟩
  · rintro ⟨ha, hb⟩
    rw [h1 ha] at hb
    exact absurd hb (by simp)
  · rintro ⟨ha, hb⟩
    rw [h3 ha] at hb
    exact absurd hb (by simp)

/-- Witness for C5 at the boot state. -/
theorem c5_exactly_one_state_witness :
    (∃! c : ProvisioningState, classify initState = c) ∧
    ¬(initState.portalActive = true ∧ initState.radioOff = true) ∧
    ¬(initState.serverStarted = true ∧ initState.radioOff = true) :=
  c5_exactly_one_state initState (Observed.boundary Reachable.init)

/-! ### C6 -/

/-- Whether a command other than none was emitted. -/
def isCommand : ButtonCommand → Bool
  | ButtonCommand.none => false
  | ButtonCommand.shortPress => true
  | ButtonCommand.longHold => true

/-- Monitor run over a list of (level, time) samples, collecting every
classified command in order. -/
def runButtons : List (Bool × Nat) → ButtonMonState → ButtonMonState × List ButtonCommand
  | [], m => (m, [])
  | (level, t) :: rest, m =>
      ((runButtons rest (buttonStep level t m).1).1,
        (buttonStep level t m).2 :: (runButtons rest (buttonStep level t m).1).2)

theorem buttonStep_press (t : Nat) (m : ButtonMonState) (hm : m.buttonPressed = false) :
    buttonStep true t m =
      ({ buttonPressed := true, buttonPressStart := t }, ButtonCommand.none) := by
  unfold buttonStep
  rw [if_pos (by simp [hm])]

theorem buttonStep_release (t : Nat) (m : ButtonMonState) (hm : m.buttonPressed = true) :
    buttonStep false t m = ({ m with buttonPressed := false },
      if BUTTON_PRESS_TIME ≤ t - m.buttonPressStart then ButtonCommand.longHold
      else if 50 < t - m.buttonPressStart then ButtonCommand.shortPress
      else ButtonCommand.none) := by
  unfold buttonStep
  rw [if_neg (by simp), if_pos (by simp [hm])]

theorem buttonStep_held (t : Nat) (m : ButtonMonState) (hm : m.buttonPressed = true) :
    buttonStep true t m = (m, ButtonCommand.none) := by
  unfold buttonStep
  rw [if_neg (by simp [hm]), if_neg (by simp)]

theorem buttonStep_idle (t : Nat) (m : ButtonMonState) (hm : m.buttonPressed = false) :
    buttonStep false t m = (m, ButtonCommand.none) := by
  unfold buttonStep
  rw [if_neg (by simp), if_neg (by simp [hm])]

theorem runButtons_held (ts : List Nat) (m : ButtonMonState) (hm : m.buttonPressed = true) :
    runButtons (ts.map fun t => (true, t)) m = (m, ts.map fun _ => ButtonCommand.none) := by
  induction ts with
  | nil => rfl
  | cons t ts ih => simp only [List.map_cons, runButtons, buttonStep_held t m hm, ih]

theorem runButtons_idle (ts : List Nat) (m : ButtonMonState) (hm : m.buttonPressed = false) :
    runButtons (ts.map fun t => (false, t)) m = (m, ts.map fun _ => ButtonCommand.none) := by
  induction ts with
  | nil => rfl
  | cons t ts ih => simp only [List.map_cons, runButtons, buttonStep_idle t m hm, ih]

theorem runButtons_append (xs ys : List (Bool × Nat)) (m : ButtonMonState) :
    runButtons (xs ++ ys) m =
      ((runButtons ys (runButtons xs m).1).1,
        (runButtons xs m).2 ++ (runButtons ys (runButtons xs m).1).2) := by
  induction xs generalizing m with
  | nil => rfl
  | cons p xs ih =>
      rcases p with ⟨level, t⟩
      simp only [List.cons_append, runButtons, List.append_eq, ih]

theorem filter_isCommand_nones (α : Type) (ts : List α) :
    (ts.map fun _ => ButtonCommand.none).filter isCommand = [] := by
  induction ts with
  | nil => rfl
  | cons t ts ih => simp [isCommand, ih]

/-- C6: one full physical press-and-release cycle (press sampled at t0,
any number of held samples, release sampled at t1, any number of
released samples) emits exactly one command, classified from the held
duration: longHold when it is at least 3000 ms, shortPress when it is
more than 50 ms and less than 3000 ms, and nothing at all when it is at
most 50 ms; held and released samples beyond the edges emit nothing, so
the same press is never processed twice. -/
theorem c6_button_classification (t0 t1 b : Nat) (helds rels : List Nat) :
    ((runButtons ((true, t0) :: (helds.map (fun t => (true, t)) ++
          (false, t1) :: rels.map (fun t => (false, t))))
        { buttonPressed := false, buttonPressStart := b }).2.filter isCommand) =
      (if 3000 ≤ t1 - t0 then [ButtonCommand.longHold]
       else if 50 < t1 - t0 then [ButtonCommand.shortPress] else []) := by
  rw [show ((true, t0) :: (helds.map (fun t => (true, t)) ++
      (false, t1) :: rels.map (fun t => (false, t)))) =
      (((true, t0) :: helds.map (fun t => (true, t))) ++
        (false, t1) :: rels.map (fun t => (false, t))) from rfl]
  rw [runButtons_append]
  have hpress : runButtons ((true, t0) :: helds.map fun t => (true, t))
      { buttonPressed := false, buttonPressStart := b } =
      ({ buttonPressed := true, buttonPressStart := t0 },
        ButtonCommand.none :: helds.map fun _ => ButtonCommand.none) := by
    simp [runButtons,
      buttonStep_press t0 { buttonPressed := false, buttonPressStart := b } rfl,
      runButtons_held helds { buttonPressed := true, buttonPressStart := t0 } rfl]
  rw [hpress]
  simp only [runButtons,
    buttonStep_release t1 { buttonPressed := true, buttonPressStart := t0 } rfl]
  simp [runButtons_idle rels { buttonPressed := false, buttonPressStart := t0 } rfl]
  by_cases hd1 : BUTTON_PRESS_TIME ≤ t1 - t0
  · have hd1n : 3000 ≤ t1 - t0 := hd1
    simp [hd1, hd1n, List.filter_append, filter_isCommand_nones, isCommand]
  · have hd1n : ¬(3000 ≤ t1 - t0) := hd1
    by_cases hd2 : 50 < t1 - t0
    · simp [hd1, hd1n, hd2, List.filter_append, filter_isCommand_nones, isCommand]
    · simp [hd1, hd1n, hd2, List.filter_append, filter_isCommand_nones, isCommand]

/-! ### C10 -/

/-- C10: the long-hold handler sets the portal-request flag before the
saved-credential connection is attempted and the successful-connection
path returns without clearing it, so after every long hold the flag is
still set; and every poll that finds the flag set starts the
configuration portal session. -/
theorem c10_flag_survives_success (o : Oracle) (s : SysState) :
    (startConfigPortal o s).state.shouldStartConfigPortal = true ∧
    (∀ o2 : Oracle, ∀ now : Nat, ∀ s2 : SysState, s2.shouldStartConfigPortal = true →
      ((handleOTA o2 now s2).samples.map fun m => m.portalActive) = [true]) := by
  constructor
  · unfold startConfigPortal startWiFiConnection setupWebServerAndOTA
    by_cases h1 : o.hasSaved = true
    · by_cases h2 : savedConnectOk o = true
      · simp [h1, h2]
      · simp [h1, h2]
    · simp [h1]
  · intro o2 now s2 h2
    rw [handleOTA_samples_eq, if_pos h2]
    simp [portalMid]

/-- A state whose portal-request flag is pending. -/
def flaggedInit : SysState := { initState with shouldStartConfigPortal := true }

/-- Witness for C10. -/
theorem c10_flag_survives_success_witness :
    (startConfigPortal oSavedOk initState).state.shouldStartConfigPortal = true ∧
    ((handleOTA oNoSaved 0 flaggedInit).samples.map fun m => m.portalActive) = [true] :=
  ⟨(c10_flag_survives_success oSavedOk initState).1,
    (c10_flag_survives_success oSavedOk initState).2 oNoSaved 0 flaggedInit rfl⟩

/-! ### C3 -/

/-- C3, evaluated at the failing input: the button is pressed at
t = 1000 ms and released at t = 4500 ms (a long hold), a saved
credential is present and the connect attempt succeeds after four
500 ms waits.  The update service does start (ServingUpdates is
reached), but the portal-request flag set by startConfigPortal is never
cleared on the success path, so in the very same poll cycle handleOTA
starts the blocking configuration portal: the system does enter the
portal-active state, contrary to the claim. -/
theorem c3_success_path_still_requests_portal :
    (checkButton oSavedOk false 4500 pressedState).1.state.serverStarted = true ∧
    (checkButton oSavedOk false 4500 pressedState).1.state.shouldStartConfigPortal = true ∧
    ((handleOTA oSavedOk 4500
        (checkButton oSavedOk false 4500 pressedState).1.state).samples.map classify) =
      [ProvisioningState.PortalActive] := by
  decide

/-! ### C4 -/

/-- Boundary-free state right after a successful saved-credential
connect: the update service is running. -/
def servingState : SysState := (checkButton oSavedOk false 4500 pressedState).1.state

/-- C4 counterexample: starting the update service while it is already
running is not a no-op: the second invocation of setupWebServerAndOTA
changes the state (it registers one more root route and re-runs begin). -/
theorem c4_counterexample_double_start :
    servingState.serverStarted = true ∧ setupWebServerAndOTA servingState ≠ servingState := by
  decide

/-- C4 amended: the server is the single global AsyncWebServer object,
so a started service always collapses to that one instance (the started
flag, not an instance count, is what start establishes); but start has
no already-running guard: each invocation registers one more root route
handler, and a reachable execution performs the double start (successful
saved-credential connect followed by the still-pending portal run in the
same poll cycle). -/
theorem c4_amended_single_server_not_noop :
    (∀ s : SysState, (setupWebServerAndOTA s).serverStarted = true ∧
      (setupWebServerAndOTA s).rootHandlers = s.rootHandlers + 1) ∧
    (∃ s2 : SysState, Reachable s2 ∧ s2.rootHandlers = 2) := by
  constructor
  · intro s
    exact ⟨rfl, rfl⟩
  · refine ⟨(loopIter { level := false, now := 4500, oracle := oSavedOk } pressedState).state,
      Reachable.step (Reachable.step Reachable.init pressInput)
        { level := false, now := 4500, oracle := oSavedOk }, ?_⟩
    decide

/-! ### C7 -/

/-- C7: a long hold while no saved credential is present leads in the
same poll cycle to an active portal session whose configured timeout is
exactly 180 seconds; the handling before the portal entry blocks for
exactly 700 ms of fixed delays, well inside the 10 s connect window. -/
theorem c7_no_credential_portal (s : SysState) (h : Reachable s) (i : PollInput)
    (hns : i.oracle.hasSaved = false) (hpress : s.buttonPressed = true)
    (hlevel : i.level = false) (hd : 3000 ≤ i.now - s.buttonPressStart) :
    ((handleOTA i.oracle i.now (checkButton i.oracle i.level i.now s).1.state).samples.map
        fun m => (m.portalActive, m.wm.configPortalTimeout)) = [(true, 180)] ∧
    (checkButton i.oracle i.level i.now s).1.blockedMs = 700 ∧
    (checkButton i.oracle i.level i.now s).1.blockedMs ≤ 10000 := by
  obtain ⟨hf, hp, hc, ht, hs⟩ := reachable_goodB h
  have hstep : buttonStep i.level i.now
      { buttonPressed := s.buttonPressed, buttonPressStart := s.buttonPressStart } =
      ({ buttonPressed := false, buttonPressStart := s.buttonPressStart },
        ButtonCommand.longHold) := by
    unfold buttonStep
    rw [if_neg (by simp [hlevel]), if_pos (by simp [hlevel, hpress]),
      if_pos (by simpa [BUTTON_PRESS_TIME] using hd)]
  have hcb0 : checkButton i.oracle i.level i.now s =
      (startConfigPortal i.oracle
        { s with buttonPressed := false, buttonPressStart := s.buttonPressStart }, []) := by
    unfold checkButton
    rw [hstep]
  have hcb : (checkButton i.oracle i.level i.now s).1 =
      { state := { s with buttonPressed := false, buttonPressStart := s.buttonPressStart,
                          shouldStartConfigPortal := true, wifiConnected := false,
                          radioOff := false }
        blockedMs := 200 + 500
        samples := [] } := by
    rw [hcb0]
    unfold startConfigPortal startWiFiConnection
    rw [if_neg (show ¬(i.oracle.hasSaved = true) by simp [hns])]
  have hbm : (checkButton i.oracle i.level i.now s).1.blockedMs = 700 := by
    rw [hcb]
  have hflag : (checkButton i.oracle i.level i.now s).1.state.shouldStartConfigPortal = true := by
    rw [hcb]
  have htimeout :
      (checkButton i.oracle i.level i.now s).1.state.wm.configPortalTimeout = 180 := by
    rw [hcb]
    exact ht
  refine ⟨?_, hbm, by omega⟩
  rw [handleOTA_samples_eq, if_pos hflag]
  simp [portalMid, portalPrep, htimeout]

/-- Witness for C7: press at 1000 ms, release at 4500 ms, no saved
credential. -/
theorem c7_no_credential_portal_witness :
    ((handleOTA oNoSaved 4500
        (checkButton oNoSaved false 4500 pressedState).1.state).samples.map
        fun m => (m.portalActive, m.wm.configPortalTimeout)) = [(true, 180)] ∧
    (checkButton oNoSaved false 4500 pressedState).1.blockedMs = 700 ∧
    (checkButton oNoSaved false 4500 pressedState).1.blockedMs ≤ 10000 :=
  c7_no_credential_portal pressedState (Reachable.step Reachable.init pressInput)
    { level := false, now := 4500, oracle := oNoSaved }
    rfl (by decide) rfl (by decide)

/-! ### C2 -/

theorem savedConnectDelays_le (o : Oracle) : savedConnectDelays o ≤ 20 := by
  unfold savedConnectDelays
  cases o.connectsAt with
  | none => exact le_refl 20
  | some k => exact min_le_right k 20

/-- Boundary-free state right after a long hold with no saved
credential: the portal-request flag is pending. -/
def flaggedNoCredState : SysState := (checkButton oNoSaved false 4500 pressedState).1.state

/-- C2 counterexample: at a concrete reachable instant (long hold
released at 4500 ms with no saved credential, portal running into its
timeout), the very next handleOTA call blocks for 180000 ms — far beyond
the ~10 s saved-credential connect window, refuting the claim that the
poll never blocks except for that connect attempt. -/
theorem c2_counterexample_portal_blocks :
    (handleOTA oNoSaved 4500 flaggedNoCredState).blockedMs = 180000 ∧
    10000 < (handleOTA oNoSaved 4500 flaggedNoCredState).blockedMs := by
  decide

/-- C2 amended: handleOTA does not block when the portal-request flag is
clear (which holds at every iteration boundary); when the flag is set it
runs the configuration portal in blocking mode for up to the configured
180 s session timeout (during which the button monitor and status
display do not run); and the button handler itself blocks at most
10700 ms: the 10 s saved-credential connect window plus fixed delays. -/
theorem c2_amended_blocking_bounds (o : Oracle) (level : Bool) (now : Nat) (s : SysState)
    (h : s.wm.configPortalTimeout = 180) :
    (handleOTA o now s).blockedMs ≤ 180000 ∧
    (s.shouldStartConfigPortal = false → (handleOTA o now s).blockedMs = 0) ∧
    (checkButton o level now s).1.blockedMs ≤ 10700 := by
  refine ⟨?_, ?_, ?_⟩
  · unfold handleOTA
    by_cases h1 : s.shouldStartConfigPortal = true
    · by_cases h2 : o.portalConnected = true
      · simp only [h1, h2, if_pos, if_true]
        rw [h]
        exact min_le_right _ _
      · simp only [h1, h2, if_pos, if_true, if_neg]
        rw [h]
        exact min_le_right _ _
    · simp [h1]
  · intro hf
    unfold handleOTA
    rw [if_neg (by simp [hf])]
  · unfold checkButton
    rcases hb : buttonStep level now
        { buttonPressed := s.buttonPressed, buttonPressStart := s.buttonPressStart } with ⟨m, cmd⟩
    have hdel : savedConnectDelays o ≤ 20 := savedConnectDelays_le o
    cases cmd
    · simp
    · simp
    · dsimp only
      unfold startConfigPortal startWiFiConnection
      by_cases h1 : o.hasSaved = true
      · by_cases h2 : savedConnectOk o = true
        · rw [if_pos h1, if_pos h2]
          dsimp only
          omega
        · rw [if_pos h1, if_neg h2]
          dsimp only
          omega
      · rw [if_neg h1]
        dsimp only
        omega

/-- Witness for C2 amended, at the boot state. -/
theorem c2_amended_blocking_bounds_witness :
    (handleOTA oNoSaved 0 initState).blockedMs ≤ 180000 ∧
    (initState.shouldStartConfigPortal = false → (handleOTA oNoSaved 0 initState).blockedMs = 0) ∧
    (checkButton oNoSaved false 0 initState).1.blockedMs ≤ 10700 :=
  c2_amended_blocking_bounds oNoSaved false 0 initState (by decide)

/-! ### C8 -/

theorem sub32_eq (a b : Nat) (hba : b ≤ a) (ha : a < 2 ^ 32) : sub32 a b = a - b := by
  unfold sub32
  have hb : b < 2 ^ 32 := lt_of_le_of_lt hba ha
  rw [Nat.mod_eq_of_lt hb]
  have h1 : a + 2 ^ 32 - b = a - b + 2 ^ 32 := by omega
  rw [h1, Nat.add_mod_right, Nat.mod_eq_of_lt (by omega)]

theorem runProgress_spec (ts : List Nat) (last : Nat)
    (hb : ∀ t ∈ ts, t < 2 ^ 32) (hl : last < 2 ^ 32) (hle : ∀ t ∈ ts, last ≤ t)
    (hsorted : List.Pairwise (fun a b => a ≤ b) ts) :
    List.Pairwise (fun a b => a + 1000 < b) (runProgress ts last) ∧
    ∀ e ∈ runProgress ts last, last + 1000 < e := by
  induction ts generalizing last with
  | nil => simp [runProgress]
  | cons t ts ih =>
      have hsub : sub32 t last = t - last :=
        sub32_eq t last (hle t (List.mem_cons_self t ts)) (hb t (List.mem_cons_self t ts))
      rw [List.pairwise_cons] at hsorted
      by_cases hcond : 1000 < sub32 t last
      · have hemit : (onOTAProgress t last).2 = true := by
          unfold onOTAProgress
          rw [if_pos hcond]
        have hstamp : (onOTAProgress t last).1 = t := by
          unfold onOTAProgress
          rw [if_pos hcond]
        have hrun : runProgress (t :: ts) last = t :: runProgress ts t := by
          rw [runProgress, if_pos hemit, hstamp]
        obtain ⟨P, Q⟩ := ih t (fun u hu => hb u (List.mem_cons_of_mem t hu))
          (hb t (List.mem_cons_self t ts)) (fun u hu => hsorted.1 u hu) hsorted.2
        rw [hrun]
        have htlast : last + 1000 < t := by
          rw [hsub] at hcond
          omega
        refine ⟨List.pairwise_cons.mpr ⟨fun e he => Q e he, P⟩, ?_⟩
        intro e he
        rcases List.mem_cons.mp he with he1 | he2
        · omega
        · have := Q e he2
          omega
      · have hemit : (onOTAProgress t last).2 = false := by
          unfold onOTAProgress
          rw [if_neg hcond]
        have hstamp : (onOTAProgress t last).1 = last := by
          unfold onOTAProgress
          rw [if_neg hcond]
        have hrun : runProgress (t :: ts) last = runProgress ts last := by
          rw [runProgress, if_neg (by rw [hemit]; simp), hstamp]
        rw [hrun]
        exact ih last (fun u hu => hb u (List.mem_cons_of_mem t hu)) hl
          (fun u hu => le_trans (hle t (List.mem_cons_self t ts)) (hsorted.1 u hu)) hsorted.2

/-- C8: over any nondecreasing stream of progress-event times inside one
32-bit clock epoch, starting from the initial stamp 0, any two emitted
progress log lines are separated by more than 1000 ms of clock time. -/
theorem c8_progress_throttled (ts : List Nat)
    (hmono : List.Pairwise (fun a b => a ≤ b) ts) (hb : ∀ t ∈ ts, t < 2 ^ 32) :
    List.Pairwise (fun a b => a + 1000 < b) (runProgress ts 0) :=
  (runProgress_spec ts 0 hb (by norm_num) (fun t _ => Nat.zero_le t) hmono).1

/-- Witness for C8: a concrete burst of progress events; only the
events at 1200, 2500 and 4000 ms are logged. -/
theorem c8_progress_throttled_witness :
    List.Pairwise (fun a b => a + 1000 < b) (runProgress [500, 1200, 1600, 2500, 4000] 0) :=
  c8_progress_throttled [500, 1200, 1600, 2500, 4000] (by decide) (by decide)

/-! ### C9 -/

/-- C9: on a successful OTA completion the device reboots into the new
firmware after a 3000 ms grace delay (the one expected
process-termination path); on a failed completion it continues running
the current firmware without restarting. -/
theorem c9_end_callback :
    onOTAEnd true = OTAEndAction.restartAfterMs 3000 ∧
    onOTAEnd false = OTAEndAction.continueCurrentFirmware := by
  constructor
  · rfl
  · rfl

end ESP32OTA
